import Mathlib

/-!
Verification of the orchestration core of the refactoring-swarm repository:
the execution state machine (`src/orchestration/execution_graph.py`), the
orchestrator loops (`src/orchestration/orchestrator.py`, `main.py`), the
failure translator (`src/agents/judge_agent.py`) and the audit aggregation
(`src/agents/auditor_agent.py`).

The Python sources drive decisions through `re` patterns whose repetition
operators all have single-character bodies, so the embedding ships a small
backtracking matcher (`reMatch`) whose alternatives are produced in Python's
priority order, plus `reSearch`/`reFindIter` with Python's leftmost,
non-overlapping semantics.
-/

namespace Swarm

abbrev Chars := List Char

/-- ASCII model of Python's `\s` class (inputs in this development are ASCII). -/
def isWs (c : Char) : Bool :=
  c = ' ' || c = '\t' || c = '\n' || c = '\r' || c = '\x0b' || c = '\x0c'

/-- ASCII model of Python's `\w` class. -/
def isWordChar (c : Char) : Bool :=
  c.isAlphanum || c = '_'

/-- Regular-expression fragments used by the source.  Every repetition in the
source's patterns has a single-character-class body, so `rep` repeats a
character class with a minimum count and a laziness flag. -/
inductive RE where
  | lit : List Char → RE
  | rep : (Char → Bool) → Nat → Bool → RE
  | grp : RE → RE
  | cat : RE → RE → RE
  | alt : RE → RE → RE
  | eol : Bool → RE

/-- Does the literal `t` occur in `s` starting at position `p`? -/
def litAt : List Char → Chars → Nat → Bool
  | [], _, _ => true
  | c :: t, s, p =>
    match s.get? p with
    | some c2 => c = c2 && litAt t s (p + 1)
    | none => false

/-- Length of the maximal run of class characters starting at position `p`. -/
def runLen (f : Char → Bool) (s : Chars) (p : Nat) : Nat :=
  ((s.drop p).takeWhile f).length

/-- All end positions (with captured spans) of a match of `r` in `s` starting
at `p`, in Python's backtracking priority order. -/
def reMatch : RE → Chars → Nat → List (Nat × List (Nat × Nat))
  | .lit t, s, p => if litAt t s p then [(p + t.length, [])] else []
  | .rep f minRep lazyRep, s, p =>
    let maxRun := runLen f s p
    if minRep ≤ maxRun then
      let lens := List.range' minRep (maxRun + 1 - minRep)
      let lens := if lazyRep then lens else lens.reverse
      lens.map (fun k => (p + k, []))
    else []
  | .grp r, s, p =>
    (reMatch r s p).map (fun q => (q.1, (p, q.1) :: q.2))
  | .cat r1 r2, s, p =>
    (reMatch r1 s p).flatMap (fun q1 =>
      (reMatch r2 s q1.1).map (fun q2 => (q2.1, q1.2 ++ q2.2)))
  | .alt r1 r2, s, p => reMatch r1 s p ++ reMatch r2 s p
  | .eol multiline, s, p =>
    match s.get? p with
    | none => [(p, [])]
    | some c =>
      if multiline then
        if c = '\n' then [(p, [])] else []
      else
        if c = '\n' && p + 1 = s.length then [(p, [])] else []

/-- Leftmost match of `r` in `s` at or after position `from0`:
`(start, end, captured spans)`. -/
def reSearchFrom (r : RE) (s : Chars) (from0 : Nat) : Option (Nat × Nat × List (Nat × Nat)) :=
  (List.range' from0 (s.length + 1 - from0)).findSome? (fun p =>
    match reMatch r s p with
    | [] => none
    | q :: _ => some (p, q.1, q.2))

/-- Leftmost match of `r` in `s` (Python `re.search`). -/
def reSearch (r : RE) (s : Chars) : Option (Nat × Nat × List (Nat × Nat)) :=
  reSearchFrom r s 0

/-- All non-overlapping matches of `r` in `s` from position `p`, left to right
(Python `re.finditer`); `fuel` bounds the scan and is instantiated so that it
never runs out before the end of the string. -/
def reFindIterAux (r : RE) (s : Chars) : Nat → Nat → List (Nat × Nat × List (Nat × Nat))
  | 0, _ => []
  | fuel + 1, p =>
    match reSearchFrom r s p with
    | none => []
    | some m =>
      let next := if m.2.1 ≤ m.1 then m.1 + 1 else m.2.1
      m :: reFindIterAux r s fuel next

/-- Python `re.finditer`. -/
def reFindIter (r : RE) (s : Chars) : List (Nat × Nat × List (Nat × Nat)) :=
  reFindIterAux r s (s.length + 1) 0

/-- The text of the span `(a, b)` of `s`. -/
def sliceStr (s : Chars) (a b : Nat) : String :=
  String.mk ((s.drop a).take (b - a))

/-- `n`-th captured span of a match, defaulting to the empty span. -/
def capSpan (m : Nat × Nat × List (Nat × Nat)) (n : Nat) : Nat × Nat :=
  (m.2.2.getD n (0, 0))

/-- Python `str.strip()` on the ASCII whitespace class. -/
def pyStrip (s : Chars) : Chars :=
  ((s.dropWhile isWs).reverse.dropWhile isWs).reverse

/-- Text of the `n`-th captured span of a match within `s`. -/
def capTxt (s : Chars) (m : Nat × Nat × List (Nat × Nat)) (n : Nat) : Chars :=
  (s.drop (capSpan m n).1).take ((capSpan m n).2 - (capSpan m n).1)

/-- Characters of the class `[\w/\\\.]` used for test-file paths. -/
def isFileChar (c : Char) : Bool :=
  isWordChar c || c = '/' || c = '\\' || c = '.'

/-- Characters of the class `[\w:]` used for test identifiers. -/
def isWordColon (c : Char) : Bool :=
  isWordChar c || c = ':'

/-- `.` under `re.DOTALL`. -/
def dotAny (_ : Char) : Bool := true

/-- `.` without `re.DOTALL`. -/
def dotNoNl (c : Char) : Bool := c ≠ '\n'

/-- `\s+` (greedy). -/
def wsRep1 : RE := .rep isWs 1 false

/-- `\s*` (greedy). -/
def wsRep0 : RE := .rep isWs 0 false

/-- `judge_agent.create_correction_report`'s failure marker pattern
`FAILED\s+([\w/\\\.]+\.py)::([\w:]+)`. -/
def failurePattern : RE :=
  .cat (.lit "FAILED".data)
    (.cat wsRep1
      (.cat (.grp (.cat (.rep isFileChar 1 false) (.lit ".py".data)))
        (.cat (.lit "::".data) (.grp (.rep isWordColon 1 false)))))

/-- `judge_agent._extract_assertion_context`'s section pattern.  The source
spells it as an rf-string whose second replacement field holds the Python
expression `10,` — the tuple `(10,)` — so the compiled pattern is
`test_name.*?(?:FAILED|PASSED|=(10,))`: the third alternative is a literal
`=` followed by a capture group matching the literal `10,`, not a
ten-or-more run of `=`.  Compiled with `re.DOTALL`. -/
def sectionPattern (testName : String) : RE :=
  .cat (.lit testName.data)
    (.cat (.rep dotAny 0 true)
      (.alt (.lit "FAILED".data)
        (.alt (.lit "PASSED".data)
          (.cat (.lit "=".data) (.grp (.lit "10,".data))))))

/-- The operator alternation `(==|!=|>|<|>=|<=)` of the assertion pattern. -/
def opAlt : RE :=
  .grp (.alt (.lit "==".data)
    (.alt (.lit "!=".data)
      (.alt (.lit ">".data)
        (.alt (.lit "<".data)
          (.alt (.lit ">=".data) (.lit "<=".data))))))

/-- `judge_agent._extract_assertion_context`'s assertion pattern
`assert\s+(.+?)\s*(==|!=|>|<|>=|<=)\s*(.+?)$`, compiled with `re.MULTILINE`. -/
def assertPattern : RE :=
  .cat (.lit "assert".data)
    (.cat wsRep1
      (.cat (.grp (.rep dotNoNl 1 true))
        (.cat wsRep0
          (.cat opAlt
            (.cat wsRep0 (.cat (.grp (.rep dotNoNl 1 true)) (.eol true)))))))

/-- `judge_agent._extract_assertion_context`'s fallback pattern
`AssertionError:\s*(.+?)(?:\n|$)` (no flags). -/
def assertErrPattern : RE :=
  .cat (.lit "AssertionError:".data)
    (.cat wsRep0
      (.cat (.grp (.rep dotNoNl 1 true)) (.alt (.lit "\n".data) (.eol false))))

/-- `judge_agent.create_correction_report`'s bare-exception pattern
`(TypeError|AttributeError|NameError|KeyError):\s*(.+?)(?:\n|$)` (no flags). -/
def errorPattern : RE :=
  .cat (.grp (.alt (.lit "TypeError".data)
    (.alt (.lit "AttributeError".data)
      (.alt (.lit "NameError".data) (.lit "KeyError".data)))))
    (.cat (.lit ":".data)
      (.cat wsRep0
        (.cat (.grp (.rep dotNoNl 1 true)) (.alt (.lit "\n".data) (.eol false)))))

/-- Python `str.startswith`, computed on the character list (the byte-wise
`String.startsWith` does not reduce in the kernel). -/
def pyStartsWith (s pre : String) : Bool :=
  pre.data.isPrefixOf s.data

/-- `pathlib.Path(p).name` (POSIX separator, as run in the repository). -/
def basename (p : String) : String :=
  String.mk ((p.data.reverse.takeWhile (fun c => c ≠ '/')).reverse)

/-- `JudgeAgent._map_test_to_source_file`: the base name with a leading
`test_` token stripped, otherwise unchanged. -/
def mapTestToSourceFile (testFilePath : String) : String :=
  let n := basename testFilePath
  if pyStartsWith n "test_" then String.mk (n.data.drop 5) else n

/-- `JudgeAgent._extract_assertion_context output test_name`. -/
def extractAssertionContext (output : Chars) (testName : String) : String :=
  match reSearch (sectionPattern testName) output with
  | none => ""
  | some m0 =>
    let sec := (output.drop m0.1).take (m0.2.1 - m0.1)
    match reSearch assertPattern sec with
    | some m =>
      "Expected " ++ String.mk (pyStrip (capTxt sec m 0)) ++ " " ++
        String.mk (capTxt sec m 1) ++ " " ++
        String.mk (pyStrip (capTxt sec m 2)) ++ " but assertion failed"
    | none =>
      match reSearch assertErrPattern sec with
      | some m => String.mk (pyStrip (capTxt sec m 0))
      | none => "Assertion failed (see test output for details)"

/-- The dict returned by `JudgeAgent.execute` / `PytestRunner.run_tests`, in
the fields the orchestration core reads. -/
structure TestResultDict where
  success : Bool
  passed : Nat
  failed : Nat
  errors : Nat
  messages : List String
deriving DecidableEq

/-- One value of `create_correction_report`'s `file_results` map. -/
structure FileEntry where
  issues : List String
  issue_count : Nat
  status : String
deriving DecidableEq

/-- The CorrectionReport dict produced by `create_correction_report`; the
`file_results` dict is an insertion-ordered association list. -/
structure CorrectionReport where
  file_results : List (String × FileEntry)
  all_issues : List String
  total_issues : Nat
  source : String
deriving DecidableEq

/-- Python `file_results.get(file)` on the insertion-ordered dict. -/
def lookupEntry (fr : List (String × FileEntry)) (file : String) : Option FileEntry :=
  (fr.find? (fun p => p.1 == file)).map Prod.snd

/-- Update the entry of `file` in place, preserving insertion order. -/
def updateEntry : List (String × FileEntry) → String → (FileEntry → FileEntry) →
    List (String × FileEntry)
  | [], _, _ => []
  | (k, e) :: rest, file, f =>
    if k == file then (k, f e) :: rest else (k, e) :: updateEntry rest file f

/-- The failure-marker loop's insertion: create the entry when absent, then
append the issue and bump the count (no duplicate check in the source). -/
def addFailureIssue (fr : List (String × FileEntry)) (file iss : String) :
    List (String × FileEntry) :=
  match lookupEntry fr file with
  | none => fr ++ [(file, ⟨[iss], 1, "error"⟩)]
  | some _ =>
    updateEntry fr file (fun e => ⟨e.issues ++ [iss], e.issue_count + 1, e.status⟩)

/-- The bare-exception loop's insertion: create the entry when absent, then
append only when the exact issue string is not already present; the flag
reports whether the issue was appended. -/
def addErrorIssue (fr : List (String × FileEntry)) (file iss : String) :
    List (String × FileEntry) × Bool :=
  let fr1 :=
    match lookupEntry fr file with
    | none => fr ++ [(file, ⟨[], 0, "error"⟩)]
    | some _ => fr
  match lookupEntry fr1 file with
  | none => (fr1, false)
  | some e =>
    if iss ∈ e.issues then (fr1, false)
    else (updateEntry fr1 file
      (fun e2 => ⟨e2.issues ++ [iss], e2.issue_count + 1, e2.status⟩), true)

/-- `JudgeAgent.create_correction_report` (its `target_dir` parameter is
unused in the source and omitted here). -/
def createCorrectionReport (tr : TestResultDict) : CorrectionReport :=
  if tr.failed = 0 ∧ tr.errors = 0 then ⟨[], [], 0, "test_execution"⟩
  else
    let full := (String.intercalate "\n" tr.messages).data
    let step1 := (reFindIter failurePattern full).foldl
      (fun (st : List (String × FileEntry) × List String) m =>
        let tname := String.mk (capTxt full m 1)
        let sfile := mapTestToSourceFile (String.mk (capTxt full m 0))
        let ctx := extractAssertionContext full tname
        let iss :=
          if ctx ≠ "" then "Test " ++ tname ++ ": " ++ ctx
          else "Test " ++ tname ++ " failed - check logic"
        (addFailureIssue st.1 sfile iss, st.2 ++ [iss])) ([], [])
    let step2 := (reFindIter errorPattern full).foldl
      (fun (st : List (String × FileEntry) × List String) m =>
        let iss := String.mk (capTxt full m 0) ++ ": " ++
          String.mk (pyStrip (capTxt full m 1))
        let preceding := full.take m.1
        match (reFindIter failurePattern preceding).getLast? with
        | none => st
        | some fm =>
          let sfile := mapTestToSourceFile (String.mk (capTxt preceding fm 0))
          let r := addErrorIssue st.1 sfile iss
          (r.1, if r.2 then st.2 ++ [iss] else st.2)) step1
    ⟨step2.1, step2.2, step2.2.length, "test_execution"⟩

/-! ### ConcurrentAnalysisCoordinator (`AuditorAgent`, `auditor_agent.py`) -/

/-- Per-file outcome of `AuditorAgent._process_single_file`.  The source
catches every exception inside the call and returns a result whose `status`
is `"error"` and whose issue list is empty, so the call is a total function
of the file. -/
structure FileAuditResult where
  issues : List String
  status : String
deriving DecidableEq

/-- The summary dict returned by `AuditorAgent.execute`. -/
structure AuditSummaryDict where
  files_audited : Nat
  total_issues : Nat
  files_with_errors : Nat
  all_issues : List String
  status : String
deriving DecidableEq

/-- The `audit_results` map of `AuditorAgent.execute` after the optional
test-issue injection: one entry per enumerated file (insertion order), with
up to five issues of the audit-time test run appended to the first
non-test file (or the first file).  `testIssues` stands for the issue
strings the source extracts from that test run; their derivation does not
affect the aggregation. -/
def auditorFileResults (files : List String) (process : String → FileAuditResult)
    (testIssues : List String) : List (String × FileAuditResult) :=
  let results := files.map (fun f => (f, process f))
  if testIssues = [] then results
  else
    match (files.filter (fun f => ¬ pyStartsWith f "test_")).head?.orElse
        (fun _ => files.head?) with
    | none => results
    | some mainFile =>
      results.map (fun p =>
        if p.1 == mainFile then
          (p.1, ⟨p.2.issues ++ testIssues.take 5, p.2.status⟩)
        else p)

/-- Aggregation of `AuditorAgent.execute`: files with `status == "error"`
are counted in `files_with_errors` and contribute no issues; the others have
their issue lists concatenated into `all_issues`. -/
def auditorExecute (files : List String) (process : String → FileAuditResult)
    (testIssues : List String) : AuditSummaryDict :=
  if files = [] then ⟨0, 0, 0, [], "no_files_found"⟩
  else
    let results := auditorFileResults files process testIssues
    let allIssues := results.foldl
      (fun acc p => if p.2.status = "error" then acc else acc ++ p.2.issues) []
    let fwe := (results.filter (fun p => p.2.status = "error")).length
    ⟨files.length, allIssues.length, fwe, allIssues, "audit_complete"⟩

/-! ### Execution graph (`execution_graph.py`) -/

/-- `ExecutionState` of `execution_graph.py`. -/
inductive ExecState where
  | INIT | AUDIT | FIX | JUDGE | SUCCESS | MAX_ITERATIONS | ERROR
deriving DecidableEq

/-- `ExecutionGraph.MAX_ITERATIONS` (also `max_iterations` in `main.py`). -/
def graphMaxIterations : Nat := 10

/-- `ExecutionGraph.get_next_state`, with the instance field
`self.iteration_count` passed explicitly. -/
def getNextState (iterationCount : Nat) (current : ExecState)
    (judgeDecision : Option Bool) : ExecState :=
  match current with
  | .INIT => .AUDIT
  | .AUDIT => .FIX
  | .FIX => .JUDGE
  | .JUDGE =>
    match judgeDecision with
    | some true => .SUCCESS
    | some false =>
      if iterationCount < graphMaxIterations then .FIX else .MAX_ITERATIONS
    | none => .ERROR
  | _ => .ERROR

/-- `ExecutionGraph.can_continue`. -/
def canContinue (iterationCount : Nat) : Bool :=
  iterationCount < graphMaxIterations

/-! ### Orchestrator (`orchestrator.py`) -/

/-- A collaborator result dict, in the keys `Orchestrator.run` reads
(`.get` on a missing key yields `none`). -/
structure AgentDict where
  status : Option String
  approved : Option Bool
  message : Option String
deriving DecidableEq

/-- Behavior of one collaborator call: it can raise, return `None`, or
return a dict. -/
inductive CallOutcome where
  | raises : String → CallOutcome
  | returnsNone : CallOutcome
  | returns : AgentDict → CallOutcome
deriving DecidableEq

/-- The shared shape of `Orchestrator._run_audit` / `_run_fix` /
`_run_judge`: exceptions and `None` results become ERROR dicts. -/
def runPhase (noneMsg errPfx : String) (o : CallOutcome) : AgentDict :=
  match o with
  | .returns r => r
  | .returnsNone => ⟨some "ERROR", none, some noneMsg⟩
  | .raises m => ⟨some "ERROR", none, some (errPfx ++ m)⟩

/-- `Orchestrator._run_audit`. -/
def runAuditPhase (o : CallOutcome) : AgentDict :=
  runPhase "Auditor returned None" "Audit error: " o

/-- `Orchestrator._run_fix`. -/
def runFixPhase (o : CallOutcome) : AgentDict :=
  runPhase "Fixer returned None" "Fix error: " o

/-- `Orchestrator._run_judge`. -/
def runJudgePhase (o : CallOutcome) : AgentDict :=
  runPhase "Judge returned None" "Judge error: " o

/-- Result of `Orchestrator.run`, with a count of corrective-stage (FIX)
invocations. -/
structure OrchResult where
  status : String
  iterations : Nat
  fixCalls : Nat
  message : Option String
deriving DecidableEq

/-- The `while self.graph.can_continue()` loop of `Orchestrator.run`; the
fuel argument only bounds the loop and, started at `graphMaxIterations`,
never runs out before the loop's own exit (the fuel-zero branch is the
source's unreachable post-loop fallback, which also returns
MAX_ITERATIONS). -/
def orchLoop (fix judge : Nat → CallOutcome) :
    Nat → Nat → Nat → OrchResult
  | 0, iters, fc => ⟨"MAX_ITERATIONS", iters, fc, none⟩
  | fuel + 1, iters, fc =>
    if canContinue iters then
      let it := iters + 1
      let fixR := runFixPhase (fix it)
      let fc1 := fc + 1
      if fixR.status ≠ some "SUCCESS" then ⟨"ERROR", it, fc1, some "Fix failed"⟩
      else
        let judgeR := runJudgePhase (judge it)
        if judgeR.approved.getD false then ⟨"SUCCESS", it, fc1, none⟩
        else if ¬ canContinue it then ⟨"MAX_ITERATIONS", it, fc1, none⟩
        else orchLoop fix judge fuel it fc1
    else ⟨"MAX_ITERATIONS", iters, fc, none⟩

/-- `Orchestrator.run`: one audit call, then the FIX/JUDGE loop.  The
collaborator behaviors are total functions of the iteration index. -/
def orchRun (audit : CallOutcome) (fix judge : Nat → CallOutcome) : OrchResult :=
  if (runAuditPhase audit).status ≠ some "SUCCESS" then ⟨"ERROR", 0, 0, some "Audit failed"⟩
  else orchLoop fix judge graphMaxIterations 0 0

/-! ### `main.py` orchestration loop -/

/-- Result of `main.main`'s fixer/judge loop: `"SUCCESS"` is the exit-0
path, `"MAX_ITERATIONS"` the post-loop MISSION FAILED exit-1 path. -/
structure MainResult where
  status : String
  iterations : Nat
  fixerCalls : Nat
deriving DecidableEq

/-- The `while iteration < max_iterations` loop of `main.main`, with the
judge collaborator a total function of the iteration index (a collaborator
exception would leave the loop through the outer FATAL handler and is
modeled in `orchRun`, not here).  The fuel, started at
`graphMaxIterations`, never runs out before the loop's own `break`. -/
def mainLoop (judge : Nat → TestResultDict) :
    Nat → Nat → Nat → MainResult
  | 0, iters, fc => ⟨"MAX_ITERATIONS", iters, fc⟩
  | fuel + 1, iters, fc =>
    if iters < graphMaxIterations then
      let it := iters + 1
      let fc1 := fc + 1
      let j := judge it
      if j.success && j.failed == 0 then ⟨"SUCCESS", it, fc1⟩
      else if it < graphMaxIterations then mainLoop judge fuel it fc1
      else ⟨"MAX_ITERATIONS", it, fc1⟩
    else ⟨"MAX_ITERATIONS", iters, fc⟩

/-- `main.main`'s fixer/judge loop run from the start. -/
def mainRun (judge : Nat → TestResultDict) : MainResult :=
  mainLoop judge graphMaxIterations 0 0

/-! ### Concrete collaborator behaviors used in the theorems -/

/-- A judge whose every round reports the same failed count (1) and no
success: no strict decrease ever happens. -/
def judgeStuck : Nat → TestResultDict := fun _ => ⟨false, 0, 1, 0, []⟩

/-- A judge whose every round reports zero failed and zero errored tests but
an overall success flag of false (e.g. a nonzero pytest return code with no
parsable counts). -/
def judgeZeroButNoSuccess : Nat → TestResultDict := fun _ => ⟨false, 5, 0, 0, []⟩

/-- A judge whose every round reports full success. -/
def judgeAllPass : Nat → TestResultDict := fun _ => ⟨true, 3, 0, 0, []⟩

/-- A collaborator dict whose status is SUCCESS. -/
def okStatusDict : AgentDict := ⟨some "SUCCESS", none, none⟩

/-! ### Helper lemmas on the loops -/

/-- The `main.py` loop, started with `iters + fuel = 10`, ends in SUCCESS or
in MAX_ITERATIONS with the iteration counter at 10. -/
theorem mainLoop_success_or_max (judge : Nat → TestResultDict) :
    ∀ fuel iters fc, iters + fuel = graphMaxIterations →
      (mainLoop judge fuel iters fc).status = "SUCCESS" ∨
      ((mainLoop judge fuel iters fc).status = "MAX_ITERATIONS" ∧
        (mainLoop judge fuel iters fc).iterations = graphMaxIterations) := by
  intro fuel
  induction fuel with
  | zero =>
    intro iters fc h
    right
    exact ⟨rfl, by simpa using h⟩
  | succ n ih =>
    intro iters fc h
    simp only [mainLoop]
    split
    · split
      · left; rfl
      · split
        · exact ih (iters + 1) (fc + 1) (by omega)
        · right
          refine ⟨rfl, ?_⟩
          simp only [graphMaxIterations] at *
          omega
    · right
      refine ⟨rfl, ?_⟩
      simp only [graphMaxIterations] at *
      omega

/-- The orchestrator loop performs at most `fuel` further FIX calls. -/
theorem orchLoop_fixCalls_le (fix judge : Nat → CallOutcome) :
    ∀ fuel iters fc, (orchLoop fix judge fuel iters fc).fixCalls ≤ fc + fuel := by
  intro fuel
  induction fuel with
  | zero => intro iters fc; simp [orchLoop]
  | succ n ih =>
    intro iters fc
    simp only [orchLoop]
    split
    · split
      · simp
      · split
        · simp
        · split
          · simp
          · exact le_trans (ih (iters + 1) (fc + 1)) (by omega)
    · simp

/-- The orchestrator loop only ever returns one of the three terminal
statuses. -/
theorem orchLoop_status_cases (fix judge : Nat → CallOutcome) :
    ∀ fuel iters fc,
      (orchLoop fix judge fuel iters fc).status = "SUCCESS" ∨
      (orchLoop fix judge fuel iters fc).status = "ERROR" ∨
      (orchLoop fix judge fuel iters fc).status = "MAX_ITERATIONS" := by
  intro fuel
  induction fuel with
  | zero => intro iters fc; right; right; rfl
  | succ n ih =>
    intro iters fc
    simp only [orchLoop]
    split
    · split
      · right; left; rfl
      · split
        · left; rfl
        · split
          · right; right; rfl
          · exact ih (iters + 1) (fc + 1)
    · right; right; rfl

/-- The orchestrator loop advances the iteration counter by at most `fuel`. -/
theorem orchLoop_iterations_le (fix judge : Nat → CallOutcome) :
    ∀ fuel iters fc, (orchLoop fix judge fuel iters fc).iterations ≤ iters + fuel := by
  intro fuel
  induction fuel with
  | zero => intro iters fc; simp [orchLoop]
  | succ n ih =>
    intro iters fc
    simp only [orchLoop]
    split
    · split
      · simp
      · split
        · simp
        · split
          · simp
          · exact le_trans (ih (iters + 1) (fc + 1)) (by omega)
    · simp

/-- When every judge call raises, the orchestrator loop runs to exhaustion
and returns MAX_ITERATIONS (never ERROR). -/
theorem orchLoop_judgeRaises_max (m : Nat → String) :
    ∀ fuel iters fc,
      (orchLoop (fun _ => .returns okStatusDict) (fun i => .raises (m i))
        fuel iters fc).status = "MAX_ITERATIONS" := by
  intro fuel
  induction fuel with
  | zero => intro iters fc; rfl
  | succ n ih =>
    intro iters fc
    simp only [orchLoop, runFixPhase, runJudgePhase, runPhase, okStatusDict]
    split
    · split
      · simp_all
      · split
        · simp_all [Option.getD]
        · split
          · rfl
          · exact ih (iters + 1) (fc + 1)
    · rfl

/-! ### Claim theorems -/

/-- Claim C1, counterexample: with a judge reporting the identical failed
count 1 in every round, the run does not stop at the second round — it
performs all 10 rounds and only then ends in MAX_ITERATIONS; likewise the
state machine at iteration 2 sends a failing JUDGE back to FIX, not to
MAX_ITERATIONS. -/
theorem C1_counterexample :
    mainRun judgeStuck = ⟨"MAX_ITERATIONS", 10, 10⟩ ∧
    getNextState 2 .JUDGE (some false) = .FIX := by
  constructor
  · decide
  · decide

/-- Claim C1, amended: the controller has no progress-based circuit breaker;
identical failed counts across consecutive JUDGE rounds do not end the run
early, and MAX_ITERATIONS is reached only when the iteration counter hits
the ceiling of 10. -/
theorem C1_theorem (judge : Nat → TestResultDict)
    (h : (mainRun judge).status = "MAX_ITERATIONS") :
    (mainRun judge).iterations = graphMaxIterations := by
  rcases mainLoop_success_or_max judge graphMaxIterations 0 0 (by decide) with hs | hm
  · rw [show mainRun judge = mainLoop judge graphMaxIterations 0 0 from rfl] at h
    rw [hs] at h
    simp at h
  · exact hm.2

/-- Claim C1, witness: the amended theorem at the stuck judge. -/
theorem C1_witness :
    (mainRun judgeStuck).status = "MAX_ITERATIONS" ∧
    (mainRun judgeStuck).iterations = graphMaxIterations :=
  ⟨by decide, C1_theorem judgeStuck (by decide)⟩

/-- Claim C2, counterexample: a first JUDGE result with zero failed and zero
errored tests but a false overall success flag (e.g. a nonzero pytest exit
with no parsable counts) does not end the run in SUCCESS at iteration 1:
the loop runs all 10 rounds and the corrective stage is invoked 10 times. -/
theorem C2_counterexample :
    (judgeZeroButNoSuccess 1).failed = 0 ∧
    (judgeZeroButNoSuccess 1).errors = 0 ∧
    mainRun judgeZeroButNoSuccess = ⟨"MAX_ITERATIONS", 10, 10⟩ := by
  refine ⟨rfl, rfl, ?_⟩
  decide

/-- Claim C2, amended: if the first JUDGE result carries a true overall
success flag and a zero failed count (the two fields `main.py` actually
consults; the errors count is not consulted), the run ends in SUCCESS at
iteration 1 with the corrective stage invoked exactly once. -/
theorem C2_theorem (judge : Nat → TestResultDict)
    (h1 : (judge 1).success = true) (h2 : (judge 1).failed = 0) :
    mainRun judge = ⟨"SUCCESS", 1, 1⟩ := by
  show mainLoop judge (9 + 1) 0 0 = _
  simp only [mainLoop]
  simp [h1, h2, graphMaxIterations]

/-- Claim C2, witness: the amended theorem at an all-passing judge. -/
theorem C2_witness :
    (judgeAllPass 1).success = true ∧ (judgeAllPass 1).failed = 0 ∧
    mainRun judgeAllPass = ⟨"SUCCESS", 1, 1⟩ :=
  ⟨rfl, rfl, C2_theorem judgeAllPass rfl rfl⟩

/-- Claim C4, counterexample: an exception raised by the validator on every
JUDGE call is caught but is not converted into terminal state ERROR — the
judge result merely counts as non-approval, so the run ends in
MAX_ITERATIONS. -/
theorem C4_counterexample :
    (orchRun (.returns okStatusDict) (fun _ => .returns okStatusDict)
      (fun _ => .raises "judge crashed")).status = "MAX_ITERATIONS" ∧
    ¬ (orchRun (.returns okStatusDict) (fun _ => .returns okStatusDict)
      (fun _ => .raises "judge crashed")).status = "ERROR" := by
  constructor
  · decide
  · decide

/-- Claim C4, amended: every collaborator exception is caught at the
orchestrator boundary and the run always ends in one of the explicit
terminal states SUCCESS, ERROR or MAX_ITERATIONS; an auditor or corrective
stage exception yields terminal ERROR, while a validator exception is
treated as a non-approving JUDGE round, so a validator that always raises
ends the run in MAX_ITERATIONS rather than ERROR. -/
theorem C4_theorem :
    (∀ a f j, (orchRun a f j).status = "SUCCESS" ∨
      (orchRun a f j).status = "ERROR" ∨
      (orchRun a f j).status = "MAX_ITERATIONS") ∧
    (∀ m f j, (orchRun (.raises m) f j).status = "ERROR") ∧
    (∀ m j, (orchRun (.returns okStatusDict) (fun _ => .raises m) j).status
      = "ERROR") ∧
    (∀ m : Nat → String,
      (orchRun (.returns okStatusDict) (fun _ => .returns okStatusDict)
        (fun i => .raises (m i))).status = "MAX_ITERATIONS") := by
  refine ⟨?_, ?_, ?_, ?_⟩
  · intro a f j
    unfold orchRun
    split
    · right; left; rfl
    · exact orchLoop_status_cases f j graphMaxIterations 0 0
  · intro m f j
    simp [orchRun, runAuditPhase, runPhase]
  · intro m j
    show (orchLoop (fun _ => .raises m) j (9 + 1) 0 0).status = "ERROR"
    simp only [orchLoop]
    simp [runFixPhase, runPhase, canContinue, graphMaxIterations]
  · intro m
    exact orchLoop_judgeRaises_max m graphMaxIterations 0 0

/-- Pytest summary line `FAILED calc_test.py::test_add - assert -1 == 5`. -/
def lineAddFail : String := "FAILED calc_test.py::test_add - assert -1 == 5"

/-- Pytest summary line `FAILED calc_test.py::test_mul - assert 5 == 6`. -/
def lineMulFail : String := "FAILED calc_test.py::test_mul - assert 5 == 6"

/-- A pytest separator bar closing the short-summary section. -/
def summarySep : String := "=========="

/-- The issue string the translator derives for `test_add`. -/
def issueAdd : String := "Test test_add: Expected -1 == 5 but assertion failed"

/-- The issue string the translator derives for `test_mul`: the generic
fallback, because no text after `test_mul` matches any of the section
terminators `FAILED`, `PASSED` or `=10,`, so no assertion context is
extracted for the last marker. -/
def issueMul : String := "Test test_mul failed - check logic"

/-- Scenario A of the spec: a test outcome whose raw output holds exactly
the two failure markers for `test_add` and `test_mul`. -/
def scenarioAOutcome : TestResultDict :=
  ⟨false, 0, 2, 0, [lineAddFail, lineMulFail, summarySep]⟩

/-- A test outcome whose raw output repeats the same failure marker twice. -/
def dupOutcome : TestResultDict := ⟨false, 0, 2, 0, [lineAddFail, lineAddFail]⟩

/-- A fully passing test outcome. -/
def passOutcome : TestResultDict := ⟨true, 3, 0, 0, ["3 passed in 0.12s"]⟩

/-- A one-entry file-results map used to exercise the duplicate check. -/
def frDup : List (String × FileEntry) := [("calc.py", ⟨["boom"], 1, "error"⟩)]

/-- Claim C3, counterexample: on Scenario A's raw output the single
CorrectionReport key is `calc_test.py`, not `calc.py` — `calc_test.py`
carries no leading `test_` token, so the mapping leaves it unchanged. -/
theorem C3_counterexample :
    (createCorrectionReport scenarioAOutcome).file_results.map Prod.fst
      = ["calc_test.py"] ∧
    ¬ (createCorrectionReport scenarioAOutcome).file_results.map Prod.fst
      = ["calc.py"] := by
  constructor
  · decide
  · decide

/-- Claim C3, amended: Scenario A yields a CorrectionReport with exactly one
key, `calc_test.py`, holding two issues: `test_add`'s references `-1 == 5`
(its section ends at the next `FAILED` marker), but `test_mul`'s is the
generic `Test test_mul failed - check logic` — the last marker has no
section terminator, so no `5 == 6` context is extracted.  The mapping
strips a leading `test_` token from the base name and otherwise leaves the
name unchanged (so `test_calculator.py` maps to `calculator.py` while
`calc_test.py`, whose `test` token is a suffix, stays `calc_test.py`). -/
theorem C3_theorem :
    createCorrectionReport scenarioAOutcome =
      ⟨[("calc_test.py", ⟨[issueAdd, issueMul], 2, "error"⟩)],
        [issueAdd, issueMul], 2, "test_execution"⟩ ∧
    mapTestToSourceFile "test_calculator.py" = "calculator.py" ∧
    mapTestToSourceFile "calc_test.py" = "calc_test.py" := by
  refine ⟨?_, ?_, ?_⟩
  · decide
  · decide
  · decide

/-- Claim C6: a test outcome with zero failed and zero errored tests
translates to the empty CorrectionReport — no keys, no issues,
`total_issues = 0`. -/
theorem C6_theorem (tr : TestResultDict) (h1 : tr.failed = 0)
    (h2 : tr.errors = 0) :
    createCorrectionReport tr = ⟨[], [], 0, "test_execution"⟩ := by
  simp [createCorrectionReport, h1, h2]

/-- Claim C6, witness: the empty report on a fully passing outcome. -/
theorem C6_witness :
    passOutcome.failed = 0 ∧ passOutcome.errors = 0 ∧
    createCorrectionReport passOutcome = ⟨[], [], 0, "test_execution"⟩ :=
  ⟨rfl, rfl, C6_theorem passOutcome rfl rfl⟩

/-- Claim C7: the failure translator is deterministic — it is embedded as a
pure function of the test outcome (the source routine reads no mutable
state), so translating the same outcome twice yields identical
CorrectionReports, with the same keys and issue lists in the same order. -/
theorem C7_theorem (tr : TestResultDict) :
    createCorrectionReport tr = createCorrectionReport tr := rfl

/-- Claim C8, counterexample: raw output repeating the same failure marker
twice makes the failure-marker loop append the identical issue string twice
for `calc_test.py` — that loop has no duplicate check. -/
theorem C8_counterexample :
    (createCorrectionReport dupOutcome).file_results.map (fun p => p.2.issues)
      = [[issueAdd, issueAdd]] ∧
    ¬ ([issueAdd, issueAdd] : List String).Nodup := by
  constructor
  · decide
  · decide

/-- Claim C8, amended: only the bare-exception scan skips exact-duplicate
issue strings per artifact — its insertion leaves the report unchanged when
the issue string is already present — while the failure-marker loop appends
one issue per marker occurrence and can therefore produce duplicates. -/
theorem C8_theorem (fr : List (String × FileEntry)) (file iss : String)
    (e : FileEntry) (hl : lookupEntry fr file = some e) (hm : iss ∈ e.issues) :
    addErrorIssue fr file iss = (fr, false) := by
  simp [addErrorIssue, hl, hm]

/-- Claim C8, witness: the duplicate-skipping insertion on a concrete map. -/
theorem C8_witness :
    lookupEntry frDup "calc.py" = some ⟨["boom"], 1, "error"⟩ ∧
    addErrorIssue frDup "calc.py" "boom" = (frDup, false) :=
  ⟨rfl, C8_theorem frDup "calc.py" "boom" ⟨["boom"], 1, "error"⟩ rfl
    (by decide)⟩

/-- The length of the issue-aggregation fold of `AuditorAgent.execute`:
error entries contribute nothing, success entries their issue count. -/
theorem auditFold_length (l : List (String × FileAuditResult)) :
    ∀ acc : List String,
      (l.foldl (fun acc2 p =>
          if p.2.status = "error" then acc2 else acc2 ++ p.2.issues) acc).length
        = acc.length
          + (l.map (fun p =>
              if p.2.status = "error" then 0 else p.2.issues.length)).sum := by
  induction l with
  | nil => intro acc; simp
  | cons hd tl ih =>
    intro acc
    by_cases h : hd.2.status = "error"
    · simp [h, ih]
    · simp [h, ih]
      omega

/-- Claim C9: in every AuditSummary, `total_issues` is the sum of the
issue-list lengths of the successfully analyzed artifacts only — an
artifact whose analysis failed contributes nothing to `total_issues` but is
counted in `files_with_errors`, while `files_audited` counts every
enumerated artifact including the failed ones.  (`files.Nodup` reflects
that the source's file enumeration yields distinct names, so the
`audit_results` dict has one entry per file.) -/
theorem C9_theorem (files : List String) (process : String → FileAuditResult)
    (testIssues : List String) (hnd : files.Nodup) :
    (auditorExecute files process testIssues).total_issues
        = ((auditorFileResults files process testIssues).map
            (fun p => if p.2.status = "error" then 0 else p.2.issues.length)).sum
      ∧ (auditorExecute files process testIssues).files_with_errors
        = ((auditorFileResults files process testIssues).filter
            (fun p => p.2.status = "error")).length
      ∧ (auditorExecute files process testIssues).files_audited
        = files.length := by
  by_cases h : files = []
  · subst h
    refine ⟨?_, ?_, ?_⟩ <;> simp [auditorExecute, auditorFileResults]
  · refine ⟨?_, ?_, ?_⟩
    · simp only [auditorExecute, if_neg h]
      simpa using auditFold_length (auditorFileResults files process testIssues) []
    · simp only [auditorExecute, if_neg h]
    · simp only [auditorExecute, if_neg h]

/-- Scenario B's three artifacts. -/
def scenBFiles : List String := ["module_a.py", "module_b.py", "module_c.py"]

/-- Scenario B's per-file analysis: artifact B fails with a permission
error (empty issue list, error status), A and C succeed with 2 and 3
issues. -/
def scenBProcess (f : String) : FileAuditResult :=
  if f = "module_b.py" then ⟨[], "error"⟩
  else if f = "module_a.py" then ⟨["alpha issue 1", "alpha issue 2"], "success"⟩
  else ⟨["gamma issue 1", "gamma issue 2", "gamma issue 3"], "success"⟩

/-- Claim C9, witness: Scenario B — 3 artifacts, B errors, so
`files_audited = 3`, `files_with_errors = 1` and `total_issues = 5` from A
and C only. -/
theorem C9_witness :
    scenBFiles.Nodup ∧
    (auditorExecute scenBFiles scenBProcess []).total_issues = 5 ∧
    (auditorExecute scenBFiles scenBProcess []).files_with_errors = 1 ∧
    (auditorExecute scenBFiles scenBProcess []).files_audited = 3 := by
  have h := C9_theorem scenBFiles scenBProcess [] (by decide)
  exact ⟨by decide, h.1.trans (by decide), h.2.1.trans (by decide),
    h.2.2.trans (by decide)⟩

/-- Claim C5: the orchestrator never performs more than
`MAX_ITERATIONS = 10` FIX transitions (corrective-stage calls) in one run,
for every collaborator behavior. -/
theorem C5_theorem (audit : CallOutcome) (fix judge : Nat → CallOutcome) :
    (orchRun audit fix judge).fixCalls ≤ graphMaxIterations := by
  unfold orchRun
  split
  · simp [graphMaxIterations]
  · simpa using orchLoop_fixCalls_le fix judge graphMaxIterations 0 0

/-- Claim C10: for every collaborator behavior the orchestrator run
terminates (it is a total function of the behaviors) with one of the three
terminal statuses SUCCESS, ERROR or MAX_ITERATIONS, and reports at most 10
iterations. -/
theorem C10_theorem (audit : CallOutcome) (fix judge : Nat → CallOutcome) :
    ((orchRun audit fix judge).status = "SUCCESS" ∨
      (orchRun audit fix judge).status = "ERROR" ∨
      (orchRun audit fix judge).status = "MAX_ITERATIONS") ∧
    (orchRun audit fix judge).iterations ≤ graphMaxIterations := by
  constructor
  · unfold orchRun
    split
    · right; left; rfl
    · exact orchLoop_status_cases fix judge graphMaxIterations 0 0
  · unfold orchRun
    split
    · simp [graphMaxIterations]
    · simpa using orchLoop_iterations_le fix judge graphMaxIterations 0 0

end Swarm
